import Mathlib

/-!
Verification development for the cloud image import tool
(`src/cloud_image_import.py`).

The Python source is shallowly embedded as pure Lean functions.  External
effects (CLI invocations, printed messages, `time.sleep`, `input()`) are made
observable as an explicit list of `Event`s, and nondeterministic inputs
(timestamps, process responses, console input) are passed in as parameters.
Python exceptions that the code can raise on its own (the unbound local
`ami_id`, list index errors while parsing) are modelled as explicit outcome
constructors.
-/

/-! ## String helpers mirroring `os.path` / `str` methods -/

/-- Index of the last occurrence of character `c` in `l`, if any. -/
def lastIdxOf (l : List Char) (c : Char) : Option Nat :=
  ((List.range l.length).filter (fun i => l.get? i == some c)).getLast?

/-- Python `os.path.basename` (POSIX flavour): everything after the last `/`. -/
def basename (p : String) : String :=
  match lastIdxOf p.data '/' with
  | none => p
  | some i => ⟨p.data.drop (i + 1)⟩

/-- Python `os.path.splitext`: split off the extension at the last dot of the
basename, unless the basename consists only of leading dots up to that dot. -/
def splitext (p : String) : String × String :=
  let l := p.data
  let start := match lastIdxOf l '/' with
    | some i => i + 1
    | none => 0
  match lastIdxOf l '.' with
  | none => (p, "")
  | some d =>
    if decide (start ≤ d) && ((l.drop start).take (d - start)).any (fun c => c != '.') then
      (⟨l.take d⟩, ⟨l.drop d⟩)
    else (p, "")

/-- Python `str.lower` (the source only feeds it ASCII console input). -/
def pyLower (s : String) : String := ⟨s.data.map Char.toLower⟩

/-- Split a character list at every separator recognised by `p`
(the separators are dropped; empty chunks are kept, as in Python
`str.split(sep)`). -/
def splitOnPredChars (p : Char → Bool) : List Char → List (List Char)
  | [] => [[]]
  | c :: cs =>
    let r := splitOnPredChars p cs
    if p c then [] :: r
    else
      match r with
      | [] => [[c]]
      | g :: gs => (c :: g) :: gs

/-- Python `s.split(chr(10))`: split at every newline, keeping empty chunks. -/
def pySplitOnNl (s : String) : List String :=
  (splitOnPredChars (fun c => c == '\n') s.data).map (fun l => ⟨l⟩)

/-- Python `s.split()` with no argument: split at whitespace runs, dropping
empty chunks. -/
def pyWhitespaceSplit (s : String) : List String :=
  ((splitOnPredChars Char.isWhitespace s.data).filter (fun l => !l.isEmpty)).map
    (fun l => ⟨l⟩)

/-! ## Observable events and outcomes -/

/-- One observable step of the program: an external CLI call, a printed
message, or a sleep.  `deleteObject` records the storage URL the delete
command is aimed at; `runCmd` records a full argument vector. -/
inductive Event where
  | statusQuery
  | waitingMsg (status : String)
  | progressMsg (progress : String)
  | noProgressMsg
  | sleepSecs (n : Nat)
  | fatalImportErrorMsg
  | registerImageCall (bootMode : Option String)
  | alreadyInUseMsg
  | amiIdMsg (amiId : String)
  | deleteObject (url : String)
  | promptShown (objName : String)
  | deletedMsg
  | notDeletedMsg
  | invalidInputMsg
  | runCmd (argv : List String)
  | errorCreatingImageMsg
  | imageCreatedMsg (name : String)
  | eitherRequiredMsg
  | bothForbiddenMsg
  | unsupportedCloudMsg
  | backendPipeline (cloud : String)
  deriving DecidableEq, Repr

/-- How the `while True` polling loop of
`AWSImageCreator.import_snapshot_and_create_ami` ends on a given stream of
status responses. -/
inductive PollResult where
  | completed
  | errored
  | pending
  deriving DecidableEq, Repr

/-- How a confirmation prompt loop ends on a given stream of console inputs:
the user confirmed deletion, declined it, or (stream exhausted) the loop is
still re-prompting. -/
inductive PromptOutcome where
  | deleted
  | kept
  | stillPrompting
  deriving DecidableEq, Repr

/-- Whether the prompt loop reached a decision. -/
def promptDecided : PromptOutcome → Bool
  | .stillPrompting => false
  | _ => true

/-- Result of `import_snapshot_and_create_ami`.  `raisedUnboundLocal` models
the Python `UnboundLocalError` raised by `return ami_id` when `ami_id` was
never assigned. -/
inductive ImportOutcome where
  | returned (amiId : Option String)
  | raisedUnboundLocal
  | pendingPolls
  | pendingInput
  deriving DecidableEq, Repr

/-- Result of `GCPImageCreator.create_image`.  `raisedIndexError` models the
Python exceptions from indexing a too-short response. -/
inductive GcpOutcome where
  | returned (path : Option String)
  | raisedIndexError
  | pendingInput
  deriving DecidableEq, Repr

/-- One parsed `describe-import-snapshot-tasks` response: the task status and
the optional progress field (absent models the `KeyError` caught by the
bare `except`). -/
structure PollResponse where
  status : String
  progress : Option String
  deriving DecidableEq, Repr

/-- A `subprocess.run(..., capture_output=True)` result. -/
structure RunResult where
  returncode : Int
  stdout : String
  stderr : String
  deriving DecidableEq, Repr

/-! ## AWS backend (`AWSImageCreator`) -/

/-- `AWSImageCreator.upload_to_s3` (lines 48–67): the issued `aws s3 cp`
command and the returned object name
`f"{os.path.splitext(basename)[0]}_{timestamp}.raw"`.  The timestamp is a
parameter (the source takes `datetime.now()`). -/
def upload_to_s3 (aws_cli_path local_file_path s3_bucket_name region timestamp : String) :
    List String × String :=
  let s3_object_name_orig := basename local_file_path
  let s3_object_name := (splitext s3_object_name_orig).1 ++ "_" ++ timestamp ++ ".raw"
  ([aws_cli_path, "s3", "cp", local_file_path,
    "s3://" ++ s3_bucket_name ++ "/" ++ s3_object_name, "--region", region],
   s3_object_name)

/-- The URL targeted by `AWSImageCreator.delete_s3_object` (lines 162–166),
with the parameters in the declared order `(s3_object_name, s3_bucket_name)`:
the body formats `s3://{s3_bucket_name}/{s3_object_name}`. -/
def delete_s3_object_url (s3_object_name s3_bucket_name : String) : String :=
  "s3://" ++ s3_bucket_name ++ "/" ++ s3_object_name

/-- The full `aws s3 rm` command issued by `delete_s3_object`. -/
def delete_s3_object_cmd (aws_cli_path s3_object_name s3_bucket_name region : String) :
    List String :=
  [aws_cli_path, "s3", "rm", delete_s3_object_url s3_object_name s3_bucket_name,
   "--region", region]

/-- `AWSImageCreator.prompt_delete_s3_object` (lines 168–183), with the
parameters in the declared order `(s3_object_name, s3_bucket_name)`.
Console inputs are the list `inputs`; each is passed through `.lower()`.
On input `y` the body calls
`self.delete_s3_object(s3_bucket_name, s3_object_name, region)` — i.e. it
passes its own two names positionally in swapped order into
`delete_s3_object`'s `(s3_object_name, s3_bucket_name)` parameters, which is
mirrored here by `delete_s3_object_url s3_bucket_name s3_object_name`. -/
def prompt_delete_s3_object (s3_object_name s3_bucket_name : String) :
    List String → List Event × PromptOutcome
  | [] => ([], .stillPrompting)
  | input :: rest =>
    let d := pyLower input
    if d = "y" then
      ([Event.promptShown s3_object_name,
        Event.deleteObject (delete_s3_object_url s3_bucket_name s3_object_name),
        Event.deletedMsg], .deleted)
    else if d = "n" then
      ([Event.promptShown s3_object_name, Event.notDeletedMsg], .kept)
    else
      let r := prompt_delete_s3_object s3_object_name s3_bucket_name rest
      (Event.promptShown s3_object_name :: Event.invalidInputMsg :: r.1, r.2)

/-- The interactive cleanup path as invoked from
`import_snapshot_and_create_ami` line 158:
`self.prompt_delete_s3_object(s3_bucket_name, s3_object_name, region)` —
the actual bucket is passed into the prompt's `s3_object_name` parameter and
the actual object into its `s3_bucket_name` parameter. -/
def aws_interactive_cleanup (s3_bucket_name s3_object_name : String)
    (inputs : List String) : List Event × PromptOutcome :=
  prompt_delete_s3_object s3_bucket_name s3_object_name inputs

/-- Events of one non-terminal loop iteration (lines 99–123): status query,
the waiting message, the best-effort progress print (`try`/`except`), and
`time.sleep(10)`. -/
def pollStepEvents (r : PollResponse) : List Event :=
  [Event.statusQuery, Event.waitingMsg r.status,
   (match r.progress with
    | some p => Event.progressMsg p
    | none => Event.noProgressMsg),
   Event.sleepSecs 10]

/-- The `while True` polling loop (lines 98–123) of
`import_snapshot_and_create_ami`, run against a stream of parsed status
responses.  `completed` breaks the loop, `error` prints the fatal message and
makes the whole method return, anything else prints/sleeps and polls again.
An exhausted stream (`pending`) stands for a loop that is still running. -/
def poll_loop : List PollResponse → List Event × PollResult
  | [] => ([], .pending)
  | r :: rest =>
    if r.status = "completed" then
      ([Event.statusQuery], .completed)
    else if r.status = "error" then
      ([Event.statusQuery, Event.fatalImportErrorMsg], .errored)
    else
      let t := poll_loop rest
      (pollStepEvents r ++ t.1, t.2)

/-- Concatenated per-iteration events of a run of non-terminal polls
(used to state properties of `poll_loop` on split streams). -/
def pollEventsOf : List PollResponse → List Event
  | [] => []
  | r :: rest => pollStepEvents r ++ pollEventsOf rest

/-- Lines 125–160 of `import_snapshot_and_create_ami`: the code after the
polling loop breaks on `completed`.  It registers the AMI (`register-image`,
with the boot-mode flag appended only when given), checks the raw response
text for the substring `already in use` — in which case it only prints and
never assigns `ami_id` — then runs the cleanup step, and finally executes
`return ami_id`.  Line 156 passes `(s3_bucket_name, s3_object_name)`
positionally into `delete_s3_object`'s `(s3_object_name, s3_bucket_name)`
parameters, mirrored by `delete_s3_object_url s3_bucket_name s3_object_name`;
line 158 does the same into `prompt_delete_s3_object`.
`registerStdout` is `create_ami_response.stdout.strip()`. -/
def register_and_cleanup (s3_object_name s3_bucket_name : String)
    (boot_mode : Option String) (delete_after_import : Bool)
    (registerHasAlreadyInUse : Bool) (registerStdout : String)
    (userInputs : List String) : List Event × ImportOutcome :=
  let amiVar : Option String :=
    if registerHasAlreadyInUse then none else some registerStdout
  let infoEvents :=
    if registerHasAlreadyInUse then [Event.alreadyInUseMsg]
    else [Event.amiIdMsg registerStdout]
  let cleanup : List Event × Bool :=
    if delete_after_import then
      ([Event.deleteObject (delete_s3_object_url s3_bucket_name s3_object_name)], true)
    else
      let pr := prompt_delete_s3_object s3_bucket_name s3_object_name userInputs
      (pr.1, promptDecided pr.2)
  let evs := Event.registerImageCall boot_mode :: (infoEvents ++ cleanup.1)
  if cleanup.2 then
    match amiVar with
    | some ami => (evs, .returned (some ami))
    | none => (evs, .raisedUnboundLocal)
  else (evs, .pendingInput)

/-- `AWSImageCreator.import_snapshot_and_create_ami` (lines 69–160) from the
polling loop on.  (The initial `import-snapshot` submission and JSON parsing
of the task id, lines 85–95, only produce the task id the loop queries with
and are not needed by any claim.)  The method's parameter order
`(s3_object_name, s3_bucket_name, boot_mode, delete_after_import, region)`
is kept; `region` only feeds the issued commands. -/
def import_snapshot_and_create_ami (s3_object_name s3_bucket_name : String)
    (boot_mode : Option String) (delete_after_import : Bool) (_region : String)
    (pollResponses : List PollResponse)
    (registerHasAlreadyInUse : Bool) (registerStdout : String)
    (userInputs : List String) : List Event × ImportOutcome :=
  match (poll_loop pollResponses).2 with
  | .pending => ((poll_loop pollResponses).1, .pendingPolls)
  | .errored => ((poll_loop pollResponses).1, .returned none)
  | .completed =>
    let rc := register_and_cleanup s3_object_name s3_bucket_name boot_mode
      delete_after_import registerHasAlreadyInUse registerStdout userInputs
    ((poll_loop pollResponses).1 ++ rc.1, rc.2)

/-! ## Azure backend (`AzureImageCreator`) -/

/-- `AzureImageCreator.upload` (lines 224–245): the issued
`az storage blob upload` command and the returned blob name
`f"{blob_name_orig}_{timestamp}{file_extension}"`. -/
def azure_upload (az_cli_path local_file_path container_name storage_account_name
    timestamp : String) : List String × String :=
  let blob_name0 := basename local_file_path
  let blob_name_orig := (splitext blob_name0).1
  let file_extension := (splitext blob_name0).2
  let blob_name := blob_name_orig ++ "_" ++ timestamp ++ file_extension
  ([az_cli_path, "storage", "blob", "upload",
    "--account-name", storage_account_name,
    "--file", local_file_path,
    "--container-name", container_name,
    "--name", blob_name],
   blob_name)

/-! ## GCP backend (`GCPImageCreator`) -/

/-- `GCPImageCreator.upload_to_bucket` (lines 348–361): issues the
`gsutil -m cp -n` command and returns `raw_archive_name` itself, unchanged. -/
def upload_to_bucket (gcp_util_path raw_archive_name gcp_bucket_name : String) :
    List String × String :=
  ([gcp_util_path, "-m", "cp", "-n", raw_archive_name,
    "gs://" ++ gcp_bucket_name],
   raw_archive_name)

/-- URL targeted by `GCPImageCreator.delete` (lines 415–420), parameters in
declared order `(gcloud_object_name, gcp_bucket_name)`. -/
def gcp_delete_url (gcloud_object_name gcp_bucket_name : String) : String :=
  "gs://" ++ gcp_bucket_name ++ "/" ++ gcloud_object_name

/-- `GCPImageCreator.prompt_delete` (lines 422–435): same loop shape as the
AWS prompt; on `y` it calls `self.delete(gcloud_object_name, gcp_bucket_name)`
with the parameters in matching order. -/
def gcp_prompt_delete (gcloud_object_name gcp_bucket_name : String) :
    List String → List Event × PromptOutcome
  | [] => ([], .stillPrompting)
  | input :: rest =>
    let d := pyLower input
    if d = "y" then
      ([Event.promptShown gcloud_object_name,
        Event.deleteObject (gcp_delete_url gcloud_object_name gcp_bucket_name),
        Event.deletedMsg], .deleted)
    else if d = "n" then
      ([Event.promptShown gcloud_object_name, Event.notDeletedMsg], .kept)
    else
      let r := gcp_prompt_delete gcloud_object_name gcp_bucket_name rest
      (Event.promptShown gcloud_object_name :: Event.invalidInputMsg :: r.1, r.2)

/-- The `gcloud compute images create` argument vector built at
lines 380–390: the UEFI branch adds the guest-os-features flag bundle. -/
def gcp_create_image_cmd (gcp_cli_path image_name gcp_bucket_name basename_image : String)
    (boot_mode : Option String) : List String :=
  if boot_mode = some "uefi" then
    [gcp_cli_path, "compute", "images", "create", image_name,
     "--source-uri", "gs://" ++ gcp_bucket_name ++ "/" ++ basename_image,
     "--guest-os-features=UEFI_COMPATIBLE,VIRTIO_SCSI_MULTIQUEUE,SEV_CAPABLE"]
  else
    [gcp_cli_path, "compute", "images", "create", image_name,
     "--source-uri", "gs://" ++ gcp_bucket_name ++ "/" ++ basename_image]

/-- `GCPImageCreator.create_image` (lines 363–413).  On a non-zero exit it
prints the error and returns `None`.  Otherwise it splits the stdout at
newlines, indexes line `[1]` (discarding line `[0]`), whitespace-splits it,
takes tokens `[0]` and `[1]` as image name and project (rebinding the local
`image_name`), prints, runs the cleanup step, and returns
`f"projects/{image_project}/global/images/{image_name}"`.  Missing line or
tokens raise `IndexError`. -/
def create_image (gcloud_object_name gcp_bucket_name : String)
    (boot_mode : Option String) (delete_after_import : Bool)
    (resp : RunResult) (userInputs : List String) : List Event × GcpOutcome :=
  let basename_image := basename gcloud_object_name
  let image_name0 := "image-" ++ String.replace (splitext basename_image).1 "-image.tar" ""
  let cmdEv := Event.runCmd
    (gcp_create_image_cmd "gcloud" image_name0 gcp_bucket_name basename_image boot_mode)
  if resp.returncode ≠ 0 then
    ([cmdEv, Event.errorCreatingImageMsg], .returned none)
  else
    match (pySplitOnNl resp.stdout).get? 1 with
    | none => ([cmdEv], .raisedIndexError)
    | some secondLine =>
      match (pyWhitespaceSplit secondLine).get? 0, (pyWhitespaceSplit secondLine).get? 1 with
      | some image_name, some image_project =>
        let cleanup : List Event × Bool :=
          if delete_after_import then
            ([Event.deleteObject (gcp_delete_url basename_image gcp_bucket_name)], true)
          else
            let pr := gcp_prompt_delete basename_image gcp_bucket_name userInputs
            (pr.1, promptDecided pr.2)
        let evs := [cmdEv, Event.imageCreatedMsg image_name] ++ cleanup.1
        if cleanup.2 then
          (evs, .returned (some ("projects/" ++ image_project ++ "/global/images/" ++ image_name)))
        else (evs, .pendingInput)
      | _, _ => ([cmdEv], .raisedIndexError)

/-! ## Pipeline driver (`main`, lines 438–527) -/

/-- The parsed argparse namespace.  Optional string options are `none` when
absent (argparse's default). -/
structure Args where
  path : Option String
  image : Option String
  cloud : String
  boot : Option String
  bucket : Option String
  delete : Bool
  region : Option String
  resource_group : Option String
  storage_account_name : Option String
  deriving DecidableEq, Repr

/-- Python truthiness of an optional string option: `None` and the empty
string are falsy. -/
def truthy : Option String → Bool
  | none => false
  | some s => s != ""

/-- How `main` ends: input validation failed, a provider branch was entered,
or the trailing unsupported-cloud branch ran. -/
inductive MainOutcome where
  | inputError
  | ranPipeline (cloud : String)
  | unsupportedCloud
  deriving DecidableEq, Repr

/-- The control flow of `main` after argument parsing (lines 452–527): the
two mutual-exclusion checks run first and each returns immediately after
printing; only then is a provider branch entered.  The whole body of a
provider branch (unpack/upload/import/cleanup calls) is summarised by the
single `backendPipeline` event, which is all the validation claims need. -/
def main_run (args : Args) : List Event × MainOutcome :=
  if !truthy args.path && !truthy args.image then
    ([Event.eitherRequiredMsg], .inputError)
  else if truthy args.path && truthy args.image then
    ([Event.bothForbiddenMsg], .inputError)
  else if args.cloud = "aws" then
    ([Event.backendPipeline "aws"], .ranPipeline "aws")
  else if args.cloud = "azure" then
    ([Event.backendPipeline "azure"], .ranPipeline "azure")
  else if args.cloud = "gcp" then
    ([Event.backendPipeline "gcp"], .ranPipeline "gcp")
  else
    ([Event.unsupportedCloudMsg], .unsupportedCloud)

/-! ## Helper lemmas about the polling loop -/

lemma poll_loop_cons_completed (r : PollResponse) (rest : List PollResponse)
    (h : r.status = "completed") :
    poll_loop (r :: rest) = ([Event.statusQuery], .completed) := by
  simp [poll_loop, h]

lemma poll_loop_cons_error (r : PollResponse) (rest : List PollResponse)
    (h : r.status = "error") :
    poll_loop (r :: rest) = ([Event.statusQuery, Event.fatalImportErrorMsg], .errored) := by
  simp [poll_loop, h]

lemma poll_loop_cons_active (r : PollResponse) (rest : List PollResponse)
    (h1 : r.status ≠ "completed") (h2 : r.status ≠ "error") :
    poll_loop (r :: rest) = (pollStepEvents r ++ (poll_loop rest).1, (poll_loop rest).2) := by
  simp [poll_loop, h1, h2]

lemma poll_loop_append_active (pre rest : List PollResponse)
    (hpre : ∀ q ∈ pre, q.status ≠ "completed" ∧ q.status ≠ "error") :
    poll_loop (pre ++ rest) =
      (pollEventsOf pre ++ (poll_loop rest).1, (poll_loop rest).2) := by
  induction pre with
  | nil => simp [pollEventsOf]
  | cons q pre ih =>
    have hq := hpre q (by simp)
    have ih2 := ih (fun x hx => hpre x (by simp [hx]))
    simp [List.cons_append, poll_loop_cons_active q _ hq.1 hq.2, ih2, pollEventsOf,
      List.append_assoc]

lemma count_pollStepEvents_query (r : PollResponse) :
    (pollStepEvents r).count Event.statusQuery = 1 := by
  rcases r with ⟨s, p⟩
  cases p <;> simp [pollStepEvents, List.count_cons]

lemma count_pollStepEvents_sleep (r : PollResponse) :
    (pollStepEvents r).count (Event.sleepSecs 10) = 1 := by
  rcases r with ⟨s, p⟩
  cases p <;> simp [pollStepEvents, List.count_cons]

lemma count_pollEventsOf_query (pre : List PollResponse) :
    (pollEventsOf pre).count Event.statusQuery = pre.length := by
  induction pre with
  | nil => simp [pollEventsOf]
  | cons q pre ih =>
    simp [pollEventsOf, List.count_append, count_pollStepEvents_query, ih]
    omega

lemma count_pollEventsOf_sleep (pre : List PollResponse) :
    (pollEventsOf pre).count (Event.sleepSecs 10) = pre.length := by
  induction pre with
  | nil => simp [pollEventsOf]
  | cons q pre ih =>
    simp [pollEventsOf, List.count_append, count_pollStepEvents_sleep, ih]
    omega

lemma pollStepEvents_sleep_ten (r : PollResponse) (n : Nat)
    (h : Event.sleepSecs n ∈ pollStepEvents r) : n = 10 := by
  rcases r with ⟨s, p⟩
  cases p <;> simp [pollStepEvents] at h <;> exact h

lemma pollEventsOf_sleep_ten (pre : List PollResponse) (n : Nat)
    (h : Event.sleepSecs n ∈ pollEventsOf pre) : n = 10 := by
  induction pre with
  | nil => simp [pollEventsOf] at h
  | cons q pre ih =>
    simp [pollEventsOf] at h
    rcases h with h | h
    · exact pollStepEvents_sleep_ten q n h
    · exact ih h

/-- Events that the polling loop itself can emit. -/
def isPollEvent : Event → Bool
  | .statusQuery => true
  | .waitingMsg _ => true
  | .progressMsg _ => true
  | .noProgressMsg => true
  | .sleepSecs _ => true
  | .fatalImportErrorMsg => true
  | _ => false

lemma pollStepEvents_poll (r : PollResponse) :
    ∀ e ∈ pollStepEvents r, isPollEvent e = true := by
  rcases r with ⟨s, p⟩
  intro e he
  cases p <;> simp [pollStepEvents] at he <;>
    rcases he with rfl | rfl | rfl | rfl <;> rfl

lemma poll_loop_events_poll (rs : List PollResponse) :
    ∀ e ∈ (poll_loop rs).1, isPollEvent e = true := by
  induction rs with
  | nil => simp [poll_loop]
  | cons r rest ih =>
    by_cases h1 : r.status = "completed"
    · rw [poll_loop_cons_completed r rest h1]
      intro e he
      simp at he
      rw [he]; rfl
    · by_cases h2 : r.status = "error"
      · rw [poll_loop_cons_error r rest h2]
        intro e he
        simp at he
        rcases he with rfl | rfl <;> rfl
      · rw [poll_loop_cons_active r rest h1 h2]
        intro e he
        simp at he
        rcases he with he | he
        · exact pollStepEvents_poll r e he
        · exact ih e he

lemma not_mem_of_not_pollEvent {l : List Event}
    (hl : ∀ e ∈ l, isPollEvent e = true) {e : Event} (he : isPollEvent e = false) :
    e ∉ l := by
  intro hmem
  rw [hl e hmem] at he
  cases he

lemma poll_loop_congr_status :
    ∀ (rs1 rs2 : List PollResponse),
      rs1.map PollResponse.status = rs2.map PollResponse.status →
      (poll_loop rs1).2 = (poll_loop rs2).2 ∧
      (poll_loop rs1).1.count Event.statusQuery =
        (poll_loop rs2).1.count Event.statusQuery := by
  intro rs1
  induction rs1 with
  | nil =>
    intro rs2 h
    cases rs2 with
    | nil => exact ⟨rfl, rfl⟩
    | cons q qs => simp at h
  | cons r rest ih =>
    intro rs2 h
    cases rs2 with
    | nil => simp at h
    | cons q qs =>
      simp only [List.map_cons, List.cons.injEq] at h
      obtain ⟨h1, h2⟩ := h
      by_cases hc : r.status = "completed"
      · rw [poll_loop_cons_completed r rest hc,
          poll_loop_cons_completed q qs (by rw [← h1]; exact hc)]
        exact ⟨rfl, rfl⟩
      · by_cases he : r.status = "error"
        · rw [poll_loop_cons_error r rest he,
            poll_loop_cons_error q qs (by rw [← h1]; exact he)]
          exact ⟨rfl, rfl⟩
        · rw [poll_loop_cons_active r rest hc he,
            poll_loop_cons_active q qs (by rw [← h1]; exact hc) (by rw [← h1]; exact he)]
          obtain ⟨ih1, ih2⟩ := ih qs h2
          refine ⟨ih1, ?_⟩
          simp [List.count_append, count_pollStepEvents_query, ih2]

/-! ## Claim theorems: polling state machine -/

/-- Claim C3: on any polled status sequence consisting of non-terminal
statuses followed by a first terminal status, the loop issues exactly one
status query per non-terminal response plus one final query that observes the
terminal status, sleeps exactly 10 seconds between consecutive queries (one
sleep per non-terminal poll, and every sleep in the trace is 10 seconds), and
issues no further query after the terminal status: the responses after the
first terminal one are never consumed.  The loop breaks on `completed` and
aborts on `error`. -/
theorem c3_polling_stops_at_first_terminal_status
    (pre : List PollResponse) (r : PollResponse) (post : List PollResponse)
    (hpre : ∀ q ∈ pre, q.status ≠ "completed" ∧ q.status ≠ "error")
    (hr : r.status = "completed" ∨ r.status = "error") :
    (poll_loop (pre ++ r :: post)).1.count Event.statusQuery = pre.length + 1 ∧
    (poll_loop (pre ++ r :: post)).1.count (Event.sleepSecs 10) = pre.length ∧
    (∀ n, Event.sleepSecs n ∈ (poll_loop (pre ++ r :: post)).1 → n = 10) ∧
    (r.status = "completed" → (poll_loop (pre ++ r :: post)).2 = .completed) ∧
    (r.status = "error" → (poll_loop (pre ++ r :: post)).2 = .errored) := by
  rw [poll_loop_append_active pre (r :: post) hpre]
  rcases hr with h | h
  · rw [poll_loop_cons_completed r post h]
    refine ⟨?_, ?_, ?_, ?_, ?_⟩
    · simp [List.count_append, count_pollEventsOf_query, List.count_cons]
    · simp [List.count_append, count_pollEventsOf_sleep, List.count_cons]
    · intro n hn
      rcases List.mem_append.mp hn with hn | hn
      · exact pollEventsOf_sleep_ten pre n hn
      · simp at hn
    · intro _; rfl
    · intro h2; rw [h] at h2; exact absurd h2 (by decide)
  · rw [poll_loop_cons_error r post h]
    refine ⟨?_, ?_, ?_, ?_, ?_⟩
    · simp [List.count_append, count_pollEventsOf_query, List.count_cons]
    · simp [List.count_append, count_pollEventsOf_sleep, List.count_cons]
    · intro n hn
      rcases List.mem_append.mp hn with hn | hn
      · exact pollEventsOf_sleep_ten pre n hn
      · simp at hn
    · intro h2; rw [h] at h2; exact absurd h2 (by decide)
    · intro _; rfl

/-- Witness for C3: one `active` poll with progress, then `completed`; a
further response is never consumed.  Query count 2, one 10-second sleep,
terminal result `completed`. -/
theorem c3_polling_stops_at_first_terminal_status_witness :
    (poll_loop ([⟨"active", some "42"⟩] ++ ⟨"completed", none⟩ ::
        [⟨"active", none⟩])).1.count Event.statusQuery = 1 + 1 ∧
    (poll_loop ([⟨"active", some "42"⟩] ++ ⟨"completed", none⟩ ::
        [⟨"active", none⟩])).1.count (Event.sleepSecs 10) = 1 ∧
    (poll_loop ([⟨"active", some "42"⟩] ++ ⟨"completed", none⟩ ::
        [⟨"active", none⟩])).2 = .completed := by
  have h := c3_polling_stops_at_first_terminal_status
    [⟨"active", some "42"⟩] ⟨"completed", none⟩ [⟨"active", none⟩]
    (by decide) (Or.inl rfl)
  exact ⟨h.1, h.2.1, h.2.2.2.1 rfl⟩

/-- Claim C4: when a poll observes the terminal `error` status, the import
method prints the fatal message and returns `None`; the `register-image`
call, the auto-delete, and the confirmation prompt are all never reached. -/
theorem c4_error_aborts_without_register_or_cleanup
    (o b : String) (bm : Option String) (del : Bool) (reg : String)
    (pre : List PollResponse) (r : PollResponse) (post : List PollResponse)
    (inUse : Bool) (regOut : String) (inputs : List String)
    (hpre : ∀ q ∈ pre, q.status ≠ "completed" ∧ q.status ≠ "error")
    (hr : r.status = "error") :
    (import_snapshot_and_create_ami o b bm del reg (pre ++ r :: post) inUse regOut
        inputs).2 = .returned none ∧
    Event.fatalImportErrorMsg ∈
      (import_snapshot_and_create_ami o b bm del reg (pre ++ r :: post) inUse regOut
        inputs).1 ∧
    Event.registerImageCall bm ∉
      (import_snapshot_and_create_ami o b bm del reg (pre ++ r :: post) inUse regOut
        inputs).1 ∧
    (∀ u, Event.deleteObject u ∉
      (import_snapshot_and_create_ami o b bm del reg (pre ++ r :: post) inUse regOut
        inputs).1) ∧
    (∀ s, Event.promptShown s ∉
      (import_snapshot_and_create_ami o b bm del reg (pre ++ r :: post) inUse regOut
        inputs).1) := by
  have hsplit := poll_loop_append_active pre (r :: post) hpre
  have hcons := poll_loop_cons_error r post hr
  have hsnd : (poll_loop (pre ++ r :: post)).2 = .errored := by
    rw [hsplit, hcons]
  have hfst : (poll_loop (pre ++ r :: post)).1 =
      pollEventsOf pre ++ [Event.statusQuery, Event.fatalImportErrorMsg] := by
    rw [hsplit, hcons]
  have hrun : import_snapshot_and_create_ami o b bm del reg (pre ++ r :: post) inUse
      regOut inputs = ((poll_loop (pre ++ r :: post)).1, .returned none) := by
    simp only [import_snapshot_and_create_ami, hsnd]
  have hshape := poll_loop_events_poll (pre ++ r :: post)
  rw [hrun]
  refine ⟨rfl, ?_, ?_, ?_, ?_⟩
  · rw [hfst]; simp
  · exact not_mem_of_not_pollEvent hshape rfl
  · intro u; exact not_mem_of_not_pollEvent hshape rfl
  · intro s; exact not_mem_of_not_pollEvent hshape rfl

/-- Witness for C4: the async provider reports `error` on the first poll;
the run returns no image id and the fatal message was printed. -/
theorem c4_error_aborts_without_register_or_cleanup_witness :
    (import_snapshot_and_create_ami "obj.raw" "bkt" none true "us-east-1"
        ([] ++ ⟨"error", none⟩ :: []) false "ami-1" []).2 = .returned none ∧
    Event.fatalImportErrorMsg ∈
      (import_snapshot_and_create_ami "obj.raw" "bkt" none true "us-east-1"
        ([] ++ ⟨"error", none⟩ :: []) false "ami-1" []).1 ∧
    Event.registerImageCall none ∉
      (import_snapshot_and_create_ami "obj.raw" "bkt" none true "us-east-1"
        ([] ++ ⟨"error", none⟩ :: []) false "ami-1" []).1 := by
  have h := c4_error_aborts_without_register_or_cleanup "obj.raw" "bkt" none true
    "us-east-1" [] ⟨"error", none⟩ [] false "ami-1" [] (by decide) rfl
  exact ⟨h.1, h.2.1, h.2.2.1⟩

/-- Claim C9: the optional progress field never influences the polling
control flow or the import result.  Two runs whose poll response streams
carry the same statuses (differing arbitrarily in the progress fields, in
particular in their presence) produce the same outcome — in particular the
same returned image identifier — the same number of status queries, and the
same terminal poll result. -/
theorem c9_progress_never_alters_outcome
    (o b : String) (bm : Option String) (del : Bool) (reg : String)
    (rs1 rs2 : List PollResponse) (inUse : Bool) (regOut : String)
    (inputs : List String)
    (h : rs1.map PollResponse.status = rs2.map PollResponse.status) :
    (import_snapshot_and_create_ami o b bm del reg rs1 inUse regOut inputs).2 =
      (import_snapshot_and_create_ami o b bm del reg rs2 inUse regOut inputs).2 ∧
    (poll_loop rs1).1.count Event.statusQuery =
      (poll_loop rs2).1.count Event.statusQuery ∧
    (poll_loop rs1).2 = (poll_loop rs2).2 := by
  obtain ⟨hsnd, hcnt⟩ := poll_loop_congr_status rs1 rs2 h
  refine ⟨?_, hcnt, hsnd⟩
  simp only [import_snapshot_and_create_ami]
  rw [hsnd]
  cases h2 : (poll_loop rs2).2 <;> simp

/-- Witness for C9: an `active` poll with progress `42` versus an `active`
poll with the progress field missing, both followed by `completed`: same
returned AMI id. -/
theorem c9_progress_never_alters_outcome_witness :
    (import_snapshot_and_create_ami "obj.raw" "bkt" none true "us-east-1"
        [⟨"active", some "42"⟩, ⟨"completed", none⟩] false "ami-1" []).2 =
      (import_snapshot_and_create_ami "obj.raw" "bkt" none true "us-east-1"
        [⟨"active", none⟩, ⟨"completed", none⟩] false "ami-1" []).2 ∧
    (import_snapshot_and_create_ami "obj.raw" "bkt" none true "us-east-1"
        [⟨"active", some "42"⟩, ⟨"completed", none⟩] false "ami-1" []).2 =
      .returned (some "ami-1") := by
  have h := c9_progress_never_alters_outcome "obj.raw" "bkt" none true "us-east-1"
    [⟨"active", some "42"⟩, ⟨"completed", none⟩]
    [⟨"active", none⟩, ⟨"completed", none⟩] false "ami-1" [] (by decide)
  exact ⟨h.1, by decide⟩

/-! ## Claim theorems: cleanup targets and the already-in-use path -/

/-- Claim C1 (refuting theorem): on the auto-delete path after a successful
import, the AWS backend does not delete the uploaded object.  With bucket
`bucket-a` and uploaded object `disk_1.raw`, line 156 passes the bucket and
object positionally into `delete_s3_object`'s swapped `(s3_object_name,
s3_bucket_name)` parameters, so the issued delete targets
`s3://disk_1.raw/bucket-a` — object and bucket exchanged — and not the
remote object `s3://bucket-a/disk_1.raw`. -/
theorem c1_auto_delete_targets_swapped_url :
    import_snapshot_and_create_ami "disk_1.raw" "bucket-a" none true "us-east-1"
        [⟨"completed", none⟩] false "ami-1" []
      = ([Event.statusQuery, Event.registerImageCall none, Event.amiIdMsg "ami-1",
          Event.deleteObject "s3://disk_1.raw/bucket-a"],
         .returned (some "ami-1")) ∧
    ("s3://disk_1.raw/bucket-a" : String) ≠ "s3://bucket-a/disk_1.raw" := by
  exact ⟨by decide, by decide⟩

/-- Claim C2 (refuting theorem): when the `register-image` response contains
`already in use`, the code prints the informational message and still runs
the cleanup step, but then `return ami_id` raises `UnboundLocalError`
(`ami_id` is assigned only in the non-duplicate branch), so the job does not
terminate normally. -/
theorem c2_already_in_use_cleans_up_then_raises :
    import_snapshot_and_create_ami "obj.raw" "bkt" none true "us-east-1"
        [⟨"completed", none⟩] true "" []
      = ([Event.statusQuery, Event.registerImageCall none, Event.alreadyInUseMsg,
          Event.deleteObject "s3://obj.raw/bkt"],
         .raisedUnboundLocal) := by
  decide

/-! ## Helper lemmas about the confirmation prompts -/

lemma aws_prompt_outcome_characterization (o b : String) :
    ∀ inputs : List String,
      ((prompt_delete_s3_object o b inputs).2 = .deleted ↔
        ∃ pre x post, inputs = pre ++ x :: post ∧ pyLower x = "y" ∧
          ∀ t ∈ pre, pyLower t ≠ "y" ∧ pyLower t ≠ "n") ∧
      ((prompt_delete_s3_object o b inputs).2 = .kept ↔
        ∃ pre x post, inputs = pre ++ x :: post ∧ pyLower x = "n" ∧
          ∀ t ∈ pre, pyLower t ≠ "y" ∧ pyLower t ≠ "n") ∧
      ((prompt_delete_s3_object o b inputs).2 = .stillPrompting ↔
        ∀ t ∈ inputs, pyLower t ≠ "y" ∧ pyLower t ≠ "n") := by
  intro inputs
  induction inputs with
  | nil =>
    refine ⟨?_, ?_, ?_⟩
    · constructor
      · intro h; simp [prompt_delete_s3_object] at h
      · rintro ⟨pre, x, post, hdec, -, -⟩
        cases pre <;> simp at hdec
    · constructor
      · intro h; simp [prompt_delete_s3_object] at h
      · rintro ⟨pre, x, post, hdec, -, -⟩
        cases pre <;> simp at hdec
    · simp [prompt_delete_s3_object]
  | cons i rest ih =>
    obtain ⟨ihD, ihK, ihS⟩ := ih
    by_cases hy : pyLower i = "y"
    · have hsnd : (prompt_delete_s3_object o b (i :: rest)).2 = .deleted := by
        simp [prompt_delete_s3_object, hy]
      refine ⟨iff_of_true hsnd ⟨[], i, rest, rfl, hy, by simp⟩, ?_, ?_⟩
      · constructor
        · intro h; rw [hsnd] at h; exact absurd h (by decide)
        · rintro ⟨pre, x, post, hdec, hx, hpre⟩
          cases pre with
          | nil =>
            simp at hdec
            obtain ⟨hix, -⟩ := hdec
            rw [← hix] at hx
            rw [hy] at hx
            exact absurd hx (by decide)
          | cons p pre2 =>
            simp at hdec
            obtain ⟨hip, -⟩ := hdec
            have hmem := hpre p (by simp)
            rw [← hip] at hmem
            exact absurd hy hmem.1
      · constructor
        · intro h; rw [hsnd] at h; exact absurd h (by decide)
        · intro hall
          exact absurd hy (hall i (by simp)).1
    · by_cases hn : pyLower i = "n"
      · have hsnd : (prompt_delete_s3_object o b (i :: rest)).2 = .kept := by
          simp [prompt_delete_s3_object, hy, hn]
        refine ⟨?_, iff_of_true hsnd ⟨[], i, rest, rfl, hn, by simp⟩, ?_⟩
        · constructor
          · intro h; rw [hsnd] at h; exact absurd h (by decide)
          · rintro ⟨pre, x, post, hdec, hx, hpre⟩
            cases pre with
            | nil =>
              simp at hdec
              obtain ⟨hix, -⟩ := hdec
              rw [← hix] at hx
              exact absurd hx hy
            | cons p pre2 =>
              simp at hdec
              obtain ⟨hip, -⟩ := hdec
              have hmem := hpre p (by simp)
              rw [← hip] at hmem
              exact absurd hn hmem.2
        · constructor
          · intro h; rw [hsnd] at h; exact absurd h (by decide)
          · intro hall
            exact absurd hn (hall i (by simp)).2
      · have hsnd : (prompt_delete_s3_object o b (i :: rest)).2 =
            (prompt_delete_s3_object o b rest).2 := by
          simp [prompt_delete_s3_object, hy, hn]
        refine ⟨?_, ?_, ?_⟩
        · rw [hsnd, ihD]
          constructor
          · rintro ⟨pre, x, post, hdec, hx, hpre⟩
            refine ⟨i :: pre, x, post, by simp [hdec], hx, ?_⟩
            intro t ht
            rcases List.mem_cons.mp ht with rfl | ht
            · exact ⟨hy, hn⟩
            · exact hpre t ht
          · rintro ⟨pre, x, post, hdec, hx, hpre⟩
            cases pre with
            | nil =>
              simp at hdec
              obtain ⟨hix, -⟩ := hdec
              rw [← hix] at hx
              exact absurd hx hy
            | cons p pre2 =>
              simp at hdec
              obtain ⟨-, hrest⟩ := hdec
              exact ⟨pre2, x, post, hrest, hx, fun t ht => hpre t (by simp [ht])⟩
        · rw [hsnd, ihK]
          constructor
          · rintro ⟨pre, x, post, hdec, hx, hpre⟩
            refine ⟨i :: pre, x, post, by simp [hdec], hx, ?_⟩
            intro t ht
            rcases List.mem_cons.mp ht with rfl | ht
            · exact ⟨hy, hn⟩
            · exact hpre t ht
          · rintro ⟨pre, x, post, hdec, hx, hpre⟩
            cases pre with
            | nil =>
              simp at hdec
              obtain ⟨hix, -⟩ := hdec
              rw [← hix] at hx
              exact absurd hx hn
            | cons p pre2 =>
              simp at hdec
              obtain ⟨-, hrest⟩ := hdec
              exact ⟨pre2, x, post, hrest, hx, fun t ht => hpre t (by simp [ht])⟩
        · rw [hsnd, ihS]
          constructor
          · intro hall t ht
            rcases List.mem_cons.mp ht with rfl | ht
            · exact ⟨hy, hn⟩
            · exact hall t ht
          · intro hall t ht
            exact hall t (by simp [ht])

lemma aws_prompt_invalid_events (o b : String) :
    ∀ inputs : List String,
      (∀ t ∈ inputs, pyLower t ≠ "y" ∧ pyLower t ≠ "n") →
      (∀ u, Event.deleteObject u ∉ (prompt_delete_s3_object o b inputs).1) ∧
      (prompt_delete_s3_object o b inputs).1.count Event.invalidInputMsg =
        inputs.length := by
  intro inputs
  induction inputs with
  | nil => intro _; simp [prompt_delete_s3_object]
  | cons i rest ih =>
    intro hall
    have hy := (hall i (by simp)).1
    have hn := (hall i (by simp)).2
    have ih2 := ih (fun t ht => hall t (by simp [ht]))
    have hfst : (prompt_delete_s3_object o b (i :: rest)).1 =
        Event.promptShown o :: Event.invalidInputMsg ::
          (prompt_delete_s3_object o b rest).1 := by
      simp [prompt_delete_s3_object, hy, hn]
    constructor
    · intro u hu
      rw [hfst] at hu
      simp at hu
      exact ih2.1 u hu
    · rw [hfst]
      simp [List.count_cons, ih2.2]

lemma gcp_prompt_snd_eq (o b : String) :
    ∀ inputs : List String,
      (gcp_prompt_delete o b inputs).2 = (prompt_delete_s3_object o b inputs).2 := by
  intro inputs
  induction inputs with
  | nil => rfl
  | cons i rest ih =>
    by_cases hy : pyLower i = "y"
    · simp [gcp_prompt_delete, prompt_delete_s3_object, hy]
    · by_cases hn : pyLower i = "n"
      · simp [gcp_prompt_delete, prompt_delete_s3_object, hy, hn]
      · simp [gcp_prompt_delete, prompt_delete_s3_object, hy, hn, ih]

lemma gcp_prompt_invalid_events (o b : String) :
    ∀ inputs : List String,
      (∀ t ∈ inputs, pyLower t ≠ "y" ∧ pyLower t ≠ "n") →
      (∀ u, Event.deleteObject u ∉ (gcp_prompt_delete o b inputs).1) ∧
      (gcp_prompt_delete o b inputs).1.count Event.invalidInputMsg =
        inputs.length := by
  intro inputs
  induction inputs with
  | nil => intro _; simp [gcp_prompt_delete]
  | cons i rest ih =>
    intro hall
    have hy := (hall i (by simp)).1
    have hn := (hall i (by simp)).2
    have ih2 := ih (fun t ht => hall t (by simp [ht]))
    have hfst : (gcp_prompt_delete o b (i :: rest)).1 =
        Event.promptShown o :: Event.invalidInputMsg ::
          (gcp_prompt_delete o b rest).1 := by
      simp [gcp_prompt_delete, hy, hn]
    constructor
    · intro u hu
      rw [hfst] at hu
      simp at hu
      exact ih2.1 u hu
    · rw [hfst]
      simp [List.count_cons, ih2.2]

/-! ## Claim theorems: confirmation prompt and interactive cleanup -/

/-- Claim C8: for both confirmation prompts (AWS and GCP variants), the loop
ends in a deletion exactly when the input stream is some junk inputs — each
neither `y` nor `n` after lowercasing — followed by a case-insensitive `y`;
it exits without deleting exactly when such a junk run is followed by a
case-insensitive `n`; and as long as every input read is invalid the loop
keeps re-prompting (one invalid-input message per input), performs no
deletion, and reaches no decision. -/
theorem c8_confirmation_prompt_loop (o b : String) (inputs : List String) :
    ((prompt_delete_s3_object o b inputs).2 = .deleted ↔
      ∃ pre x post, inputs = pre ++ x :: post ∧ pyLower x = "y" ∧
        ∀ t ∈ pre, pyLower t ≠ "y" ∧ pyLower t ≠ "n") ∧
    ((prompt_delete_s3_object o b inputs).2 = .kept ↔
      ∃ pre x post, inputs = pre ++ x :: post ∧ pyLower x = "n" ∧
        ∀ t ∈ pre, pyLower t ≠ "y" ∧ pyLower t ≠ "n") ∧
    ((∀ t ∈ inputs, pyLower t ≠ "y" ∧ pyLower t ≠ "n") →
      (prompt_delete_s3_object o b inputs).2 = .stillPrompting ∧
      (∀ u, Event.deleteObject u ∉ (prompt_delete_s3_object o b inputs).1) ∧
      (prompt_delete_s3_object o b inputs).1.count Event.invalidInputMsg =
        inputs.length) ∧
    ((gcp_prompt_delete o b inputs).2 = .deleted ↔
      ∃ pre x post, inputs = pre ++ x :: post ∧ pyLower x = "y" ∧
        ∀ t ∈ pre, pyLower t ≠ "y" ∧ pyLower t ≠ "n") ∧
    ((gcp_prompt_delete o b inputs).2 = .kept ↔
      ∃ pre x post, inputs = pre ++ x :: post ∧ pyLower x = "n" ∧
        ∀ t ∈ pre, pyLower t ≠ "y" ∧ pyLower t ≠ "n") ∧
    ((∀ t ∈ inputs, pyLower t ≠ "y" ∧ pyLower t ≠ "n") →
      (gcp_prompt_delete o b inputs).2 = .stillPrompting ∧
      (∀ u, Event.deleteObject u ∉ (gcp_prompt_delete o b inputs).1) ∧
      (gcp_prompt_delete o b inputs).1.count Event.invalidInputMsg =
        inputs.length) := by
  obtain ⟨hD, hK, hS⟩ := aws_prompt_outcome_characterization o b inputs
  have hgcp := gcp_prompt_snd_eq o b inputs
  refine ⟨hD, hK, ?_, ?_, ?_, ?_⟩
  · intro hall
    obtain ⟨h1, h2⟩ := aws_prompt_invalid_events o b inputs hall
    exact ⟨hS.mpr hall, h1, h2⟩
  · rw [hgcp]; exact hD
  · rw [hgcp]; exact hK
  · intro hall
    obtain ⟨h1, h2⟩ := gcp_prompt_invalid_events o b inputs hall
    exact ⟨by rw [hgcp]; exact hS.mpr hall, h1, h2⟩

/-- Witness for C8: two invalid inputs, then an upper-case `Y`, end in a
deletion. -/
theorem c8_confirmation_prompt_loop_witness :
    (prompt_delete_s3_object "obj.raw" "bkt" ["what", "", "Y"]).2 = .deleted := by
  exact (c8_confirmation_prompt_loop "obj.raw" "bkt" ["what", "", "Y"]).1.mpr
    ⟨["what", ""], "Y", [], rfl, by decide, by decide⟩

/-- Claim C10: on the AWS interactive cleanup path (auto-delete unset) the
double parameter swap cancels out.  `import_snapshot_and_create_ami` line 158
passes `(bucket, object)` into `prompt_delete_s3_object`'s
`(s3_object_name, s3_bucket_name)` parameters, and the prompt's `y` branch
passes its two names swapped again into `delete_s3_object`; whenever the user
confirms, the single delete issued therefore targets exactly
`s3://<bucket>/<object>`. -/
theorem c10_interactive_delete_targets_correct_url
    (s3_bucket_name s3_object_name : String) (inputs : List String)
    (h : (aws_interactive_cleanup s3_bucket_name s3_object_name inputs).2 = .deleted) :
    Event.deleteObject ("s3://" ++ s3_bucket_name ++ "/" ++ s3_object_name) ∈
      (aws_interactive_cleanup s3_bucket_name s3_object_name inputs).1 ∧
    ∀ u, Event.deleteObject u ∈
        (aws_interactive_cleanup s3_bucket_name s3_object_name inputs).1 →
      u = "s3://" ++ s3_bucket_name ++ "/" ++ s3_object_name := by
  unfold aws_interactive_cleanup at *
  induction inputs with
  | nil => exact absurd h (by simp [prompt_delete_s3_object])
  | cons i rest ih =>
    by_cases hy : pyLower i = "y"
    · have hfst : (prompt_delete_s3_object s3_bucket_name s3_object_name (i :: rest)).1 =
          [Event.promptShown s3_bucket_name,
           Event.deleteObject (delete_s3_object_url s3_object_name s3_bucket_name),
           Event.deletedMsg] := by
        simp [prompt_delete_s3_object, hy]
      have hurl : delete_s3_object_url s3_object_name s3_bucket_name =
          "s3://" ++ s3_bucket_name ++ "/" ++ s3_object_name := rfl
      rw [hfst, hurl]
      constructor
      · simp
      · intro u hu
        simp at hu
        exact hu
    · by_cases hn : pyLower i = "n"
      · have hsnd : (prompt_delete_s3_object s3_bucket_name s3_object_name
            (i :: rest)).2 = .kept := by
          simp [prompt_delete_s3_object, hy, hn]
        rw [hsnd] at h
        exact absurd h (by decide)
      · have hstep : prompt_delete_s3_object s3_bucket_name s3_object_name (i :: rest) =
            (Event.promptShown s3_bucket_name :: Event.invalidInputMsg ::
              (prompt_delete_s3_object s3_bucket_name s3_object_name rest).1,
             (prompt_delete_s3_object s3_bucket_name s3_object_name rest).2) := by
          simp [prompt_delete_s3_object, hy, hn]
        rw [hstep] at h ⊢
        simp only at h
        obtain ⟨ih1, ih2⟩ := ih h
        constructor
        · simp only [List.mem_cons]
          exact Or.inr (Or.inr ih1)
        · intro u hu
          simp at hu
          exact ih2 u hu

/-- Witness for C10: with bucket `bkt` and object `obj.raw`, an invalid input
followed by `Y` issues the delete against `s3://bkt/obj.raw`. -/
theorem c10_interactive_delete_targets_correct_url_witness :
    Event.deleteObject ("s3://" ++ "bkt" ++ "/" ++ "obj.raw") ∈
      (aws_interactive_cleanup "bkt" "obj.raw" ["maybe", "Y"]).1 :=
  (c10_interactive_delete_targets_correct_url "bkt" "obj.raw" ["maybe", "Y"]
    (by decide)).1

/-! ## Claim theorems: driver input validation -/

/-- Claim C7: whenever the archive path and the raw image path are both set
or both unset (in the Python sense of truthiness argparse produces), `main`
prints the input error and returns before entering any provider branch:
the trace is exactly the one error message, with no backend operation. -/
theorem c7_driver_validates_before_backend (args : Args)
    (h : (truthy args.path = true ∧ truthy args.image = true) ∨
         (truthy args.path = false ∧ truthy args.image = false)) :
    (main_run args = ([Event.bothForbiddenMsg], .inputError) ∨
     main_run args = ([Event.eitherRequiredMsg], .inputError)) ∧
    ∀ c, Event.backendPipeline c ∉ (main_run args).1 := by
  rcases h with ⟨hp, hi⟩ | ⟨hp, hi⟩
  · have hrun : main_run args = ([Event.bothForbiddenMsg], .inputError) := by
      simp [main_run, hp, hi]
    refine ⟨Or.inl hrun, ?_⟩
    intro c
    rw [hrun]
    simp
  · have hrun : main_run args = ([Event.eitherRequiredMsg], .inputError) := by
      simp [main_run, hp, hi]
    refine ⟨Or.inr hrun, ?_⟩
    intro c
    rw [hrun]
    simp

/-- Witness for C7: both `-p` and `-i` given; `main` reports the input error
and runs no backend pipeline. -/
theorem c7_driver_validates_before_backend_witness :
    main_run ⟨some "a.tar", some "b.raw", "aws", none, some "bkt", true,
        some "us-east-1", none, none⟩ = ([Event.bothForbiddenMsg], .inputError) ∨
    main_run ⟨some "a.tar", some "b.raw", "aws", none, some "bkt", true,
        some "us-east-1", none, none⟩ = ([Event.eitherRequiredMsg], .inputError) :=
  (c7_driver_validates_before_backend
    ⟨some "a.tar", some "b.raw", "aws", none, some "bkt", true,
      some "us-east-1", none, none⟩ (Or.inl (by decide))).1

/-! ## Claim theorems: GCP response parsing -/

/-- Claim C6: on a zero-exit create-image response whose stdout splits at
newlines into exactly a header line and a second line whose first two
whitespace-delimited tokens are the image name and the owning project,
`create_image` discards the header and returns
`projects/<project>/global/images/<image name>` (provided the cleanup step
completes, which auto-delete always does). -/
theorem c6_gcp_two_line_response_parsed
    (obj bucket : String) (bm : Option String) (del : Bool) (resp : RunResult)
    (inputs : List String) (header secondLine name proj : String)
    (toks : List String)
    (h0 : resp.returncode = 0)
    (hlines : pySplitOnNl resp.stdout = [header, secondLine])
    (htoks : pyWhitespaceSplit secondLine = name :: proj :: toks)
    (hdone : del = true ∨
      promptDecided (gcp_prompt_delete (basename obj) bucket inputs).2 = true) :
    (create_image obj bucket bm del resp inputs).2 =
      .returned (some ("projects/" ++ proj ++ "/global/images/" ++ name)) := by
  rcases hdone with rfl | hpd
  · simp [create_image, h0, hlines, htoks]
  · cases del
    · simp [create_image, h0, hlines, htoks, hpd]
    · simp [create_image, h0, hlines, htoks]

/-- Witness for C6: response `HEADER`, then `img-x proj-y`, with UEFI boot
mode and auto-delete: the result path is
`projects/proj-y/global/images/img-x`. -/
theorem c6_gcp_two_line_response_parsed_witness :
    (create_image "rhel-image.tar.gz" "bkt" (some "uefi") true
        ⟨0, "HEADER\nimg-x proj-y", ""⟩ []).2 =
      .returned (some ("projects/" ++ "proj-y" ++ "/global/images/" ++ "img-x")) :=
  c6_gcp_two_line_response_parsed "rhel-image.tar.gz" "bkt" (some "uefi") true
    ⟨0, "HEADER\nimg-x proj-y", ""⟩ [] "HEADER" "img-x proj-y" "img-x" "proj-y" []
    rfl (by decide) (by decide) (Or.inl rfl)

/-! ## Claim theorems: generated upload object names -/

lemma string_data_append (a b : String) : (a ++ b).data = a.data ++ b.data := by
  simp

lemma string_append_middle_cancel (a e t1 t2 : String)
    (h : a ++ t1 ++ e = a ++ t2 ++ e) : t1 = t2 := by
  have hd := congrArg String.data h
  simp only [string_data_append] at hd
  have h2 : t1.data = t2.data :=
    List.append_cancel_left (List.append_cancel_right hd)
  cases t1
  cases t2
  exact congrArg String.mk h2

/-- Claim C5 (refuting theorem): the upload object name is not
`base name + timestamp + original extension` for every provider.  The GCP
upload returns the input name unchanged — with or without a separator, no
timestamp appears — and the AWS upload always ends the name in `.raw`
instead of the original extension (here `.img`). -/
theorem c5_upload_name_counterexample :
    (upload_to_bucket "gsutil" "disk-image.tar.gz" "bkt").2 = "disk-image.tar.gz" ∧
    (upload_to_bucket "gsutil" "disk-image.tar.gz" "bkt").2 ≠
      "disk-image.tar" ++ "20240101000000" ++ ".gz" ∧
    (upload_to_bucket "gsutil" "disk-image.tar.gz" "bkt").2 ≠
      "disk-image.tar" ++ "_" ++ "20240101000000" ++ ".gz" ∧
    (upload_to_s3 "aws" "disk.img" "bkt" "us-east-1" "20240101000000").2 =
      "disk_20240101000000.raw" ∧
    (upload_to_s3 "aws" "disk.img" "bkt" "us-east-1" "20240101000000").2 ≠
      "disk" ++ "_" ++ "20240101000000" ++ ".img" := by
  decide

/-- Claim C5 as amended: the Azure upload names the blob
`base name + underscore + timestamp + original extension`; the AWS upload
names the object `base name + underscore + timestamp + ".raw"` (always the
`.raw` extension, not the original one); the GCP upload returns the given
path unchanged, with no timestamp.  For the two providers that do append the
timestamp, names from distinct timestamps are distinct. -/
theorem c5_upload_names_amended
    (cli p container storage region ts ts1 ts2 : String) (hts : ts1 ≠ ts2) :
    (azure_upload cli p container storage ts).2 =
      (splitext (basename p)).1 ++ "_" ++ ts ++ (splitext (basename p)).2 ∧
    (upload_to_s3 cli p container region ts).2 =
      (splitext (basename p)).1 ++ "_" ++ ts ++ ".raw" ∧
    (upload_to_bucket cli p container).2 = p ∧
    (upload_to_s3 cli p container region ts1).2 ≠
      (upload_to_s3 cli p container region ts2).2 ∧
    (azure_upload cli p container storage ts1).2 ≠
      (azure_upload cli p container storage ts2).2 := by
  refine ⟨rfl, rfl, rfl, ?_, ?_⟩
  · intro heq
    exact hts (string_append_middle_cancel ((splitext (basename p)).1 ++ "_")
      ".raw" ts1 ts2 heq)
  · intro heq
    exact hts (string_append_middle_cancel ((splitext (basename p)).1 ++ "_")
      (splitext (basename p)).2 ts1 ts2 heq)

/-- Witness for the amended C5 at concrete inputs: the GCP name is the input
itself and two AWS names from distinct timestamps differ. -/
theorem c5_upload_names_amended_witness :
    (upload_to_bucket "gsutil" "disk-image.tar.gz" "bkt").2 = "disk-image.tar.gz" ∧
    (upload_to_s3 "aws" "disk-image.tar.gz" "bkt" "us-east-1" "t1").2 ≠
      (upload_to_s3 "aws" "disk-image.tar.gz" "bkt" "us-east-1" "t2").2 := by
  have h := c5_upload_names_amended "aws" "disk-image.tar.gz" "bkt" "storage"
    "us-east-1" "t1" "t1" "t2" (by decide)
  exact ⟨(c5_upload_names_amended "gsutil" "disk-image.tar.gz" "bkt" "storage"
    "us-east-1" "t1" "t1" "t2" (by decide)).2.2.1, h.2.2.2.1⟩
